import Mathlib

/-
  Verification of the compile-time configuration-selection and derived-constant
  mechanism of the AutoCalEditor generated calibration tables.

  The C sources are generated calibration tables selected by nested preprocessor
  branches (#if / #elif / #error).  We embed each configuration axis as an
  inductive type whose constructors mirror the enumerated guard macros; the
  constructor `undefinedOption` stands for the `_UNDEFINED_OPTION` sentinel and
  `other` for any integer value equal to none of the enumerated guard macros
  (the guard macros are pairwise distinct integers, so this case analysis is
  exactly the one the preprocessor performs).  Each `#if` chain becomes a total
  function into `Except ConfigError _`; an `#error` directive becomes
  `Except.error (ConfigError.UndefinedAxis axisName)`.

  FLOAT32 / double literals are embedded as exact rationals (the claims under
  study are about value-level consistency of the generated table, and every
  decimal literal of the source is an exact rational).  Fixed-width integers
  are embedded as Nat / Int; the C double-to-signed-long conversion used by the
  SWRDC gain initializers truncates toward zero, embedded by `ratTrunc` below.
-/

namespace AutoCal

/-- Resolution failure: a configuration axis was not supplied or had no
matching enumerated value (mirrors the source `#error` directives). -/
inductive ConfigError where
  | UndefinedAxis (axis : String)
deriving DecidableEq, Repr

/-- Target Identity: the fixed two-element index domain (traction motor vs
hybrid starter-generator) over which the per-target arrays are indexed. -/
inductive Target where
  | mot
  | hsg
deriving DecidableEq, Repr

/-- TOTAL_TARGET from common.h: the per-target arrays of the source all have
dimension TOTAL_TARGET and initializer lists of the form { MOT, HSG }. -/
def TOTAL_TARGET : Nat := 2

/-- Values of the _PROJECT_NAME axis (CcCalPrjCfg.h). -/
inductive ProjectName where
  | mvRwdProj
  | meRwdProj
  | other
deriving DecidableEq, Repr

/-- Values of the _PERFORMANCE_TYPE axis (CcCalPrjCfg.h): the six enumerated
versions are all accepted by one disjunctive guard. -/
inductive PerformanceType where
  | standardVersion
  | performanceVersion
  | longRangeVersion
  | eM160kWVersion
  | eM200kWVersion
  | eM250kWVersion
  | other
deriving DecidableEq, Repr

/-- Values of the _DEVELOPMENT_PHASE axis (CcCalPrjCfg.h). -/
inductive DevelopmentPhase where
  | tcarVersion
  | protoVersion
  | masterVersion
  | pilot1Version
  | pilot2Version
  | mVersion
  | sopVersion
  | rcVersion
  | other
deriving DecidableEq, Repr

/-- Values of the _MARKET_VERSION axis (CcCalPrjCfg.h). -/
inductive MarketVersion where
  | northAmericaVersion
  | domesticVersion
  | europeVersion
  | chinaVersion
  | commonCountryVersion
  | japanVersion
  | other
deriving DecidableEq, Repr

/-- Values of the _GATE_IC_TYPE axis (SpInvCal.h). -/
inductive GateIcType where
  | undefinedOption
  | gateIcType1
  | gateIcType2
  | gateIcType3
  | gateIcType4
  | gateIcType5
  | gateIcType6
  | gateIcType7
  | gateIcType8Nv74Tcar
  | other
deriving DecidableEq, Repr

/-- Values of the _POWER_MODULE_TYPE axis (SpInvCal.h). -/
inductive PowerModuleType where
  | undefinedOption
  | pmCaseType
  | pmDscType1
  | pmDscType2
  | pmHpDriveType
  | pmCVeGTType
  | pmNv74Type
  | pmMvType
  | other
deriving DecidableEq, Repr

/-- Values of the _MOT_CUR_SENSOR_TYPE axis (SpInvCal.h). -/
inductive MotCurSensorType where
  | undefinedOption
  | mot400AScaleHall
  | mot400AScaleShuntType1
  | mot500AScaleShuntType1
  | mot600AScaleShuntType1
  | mot400AScaleShuntType2
  | mot500AScaleHall
  | mot700AScaleHall
  | mot700AScaleShunt0
  | mot850AScaleHall
  | mot850AScaleHallForHpv
  | mot1000AScaleHall
  | mot1300AScaleHall
  | mot1100AScaleHall
  | mot1500AScaleHall
  | mot700AScaleCoreless
  | mot700AScaleCorelessType2
  | mot650AScaleCorelessType
  | other
deriving DecidableEq, Repr

/-- Values of the _SA_2STAGE_PWM_MODE axis (CcCalBase.c): the source chain has
no _UNDEFINED_OPTION guard, only the two enumerated values and `#error`. -/
inductive SaTwoStagePwmMode where
  | twoStgSvpwm
  | twoStgRspwm
  | other
deriving DecidableEq, Repr

/-- Values of the _SA_SQPWM_REGEN_DIS axis (CcCalBase.c). -/
inductive SqpwmRegenDis where
  | sqpwmRegenEnb
  | sqpwmRegenDis
  | other
deriving DecidableEq, Repr

/-- Values of the _PWM_BURST_MODE axis (CcCalBase.c). -/
inductive PwmBurstMode where
  | undefinedOption
  | burstModeEnable
  | burstModeDisable
  | other
deriving DecidableEq, Repr

/-- Values of the _VAR_DTGS_OPTION axis (CcCalBase.c). -/
inductive VarDtgsOption where
  | undefinedOption
  | varDtgsOptionIncluded
  | varDtgsOptionNotIncluded
  | other
deriving DecidableEq, Repr

/-- Values of the _ETPU_CALCULATION_TIME_OPTION axis (BswCfgPwm.h). -/
inductive EtpuCalcTimeOption where
  | undefinedOption
  | singleStageSystem
  | twoStageSystem
  | other
deriving DecidableEq, Repr

/-- Values of the _PWM_UPDATETIME_AUTO_MODE axis (BswCfgPwm.h). -/
inductive PwmUpdatetimeAutoMode where
  | undefinedOption
  | updatetimeAuto
  | updatetimeManual
  | other
deriving DecidableEq, Repr

/-- SET_FLAG value.  Modelled from the spec: common.h is not part of the
repository; the spec types these bindings as boolean flags, so SET_FLAG is the
set value 1 (embedded in the rational-valued binding table). -/
def SET_FLAG : ℚ := 1

/-- CLR_FLAG value.  Modelled from the spec: common.h is not part of the
repository; CLR_FLAG is the cleared value 0. -/
def CLR_FLAG : ℚ := 0

/-- Literals bound by one branch of the _GATE_IC_TYPE chain of SpInvCal.h:
the BSWCFGPWM minimum pulse widths and ASAC edge offsets, in ns. -/
structure GateIcBranch where
  MOT_INV1_MIN_WIDTH : Nat
  MOT_INV2_MIN_WIDTH : Nat
  MOT_ASAC_EDGE_OFFSET : Nat
  HSG_INV1_MIN_WIDTH : Nat
  HSG_INV2_MIN_WIDTH : Nat
  HSG_ASAC_EDGE_OFFSET : Nat
deriving DecidableEq, Repr

/-- Literals bound by one branch of the _POWER_MODULE_TYPE chain of SpInvCal.h:
the BSWCFGPWM dead times, in ns. -/
structure PmBranch where
  MOT_INV1_DEADTIME : Nat
  MOT_INV2_DEADTIME : Nat
  MOT_DEADTIME_MULTI : Nat
  HSG_INV1_DEADTIME : Nat
  HSG_INV2_DEADTIME : Nat
deriving DecidableEq, Repr

/-- Literals bound by one branch of the _ETPU_CALCULATION_TIME_OPTION chain of
BswCfgPwm.h. -/
structure EtpuBranch where
  MOT_INV1_UPDATE_TIME : Nat
  MOT_INV2_UPDATE_TIME : Nat
  MOT_eTPULoad_SYNC : Nat
  MOT_eTPULoad_RSLV : Nat
  MOT_eTPULoad_PWM : Nat
  HSG_INV1_UPDATE_TIME : Nat
  HSG_INV2_UPDATE_TIME : Nat
  HSG_eTPULoad_SYNC : Nat
  HSG_eTPULoad_RSLV : Nat
  HSG_eTPULoad_PWM : Nat
deriving DecidableEq, Repr

/-- The _GATE_IC_TYPE selection chain of SpInvCal.h lines 70-165. -/
def resolveGateIc : GateIcType → Except ConfigError GateIcBranch
  | .undefinedOption => .error (.UndefinedAxis ("_GATE_IC_TYPE"))
  | .gateIcType1 => .ok ⟨1, 1, 0, 1, 1, 0⟩
  | .gateIcType2 => .ok ⟨3000, 3000, 3000, 3000, 3000, 3000⟩
  | .gateIcType3 => .ok ⟨3000, 3000, 0, 3000, 3000, 0⟩
  | .gateIcType4 => .ok ⟨3000, 3000, 3000, 3000, 3000, 3000⟩
  | .gateIcType5 => .ok ⟨4000, 4000, 0, 3000, 3000, 0⟩
  | .gateIcType6 => .ok ⟨3000, 3000, 2600, 3000, 3000, 0⟩
  | .gateIcType7 => .ok ⟨300, 300, 390, 300, 300, 390⟩
  | .gateIcType8Nv74Tcar => .ok ⟨3000, 3000, 390, 300, 300, 390⟩
  | .other => .error (.UndefinedAxis ("_GATE_IC_TYPE"))

/-- The _POWER_MODULE_TYPE selection chain of SpInvCal.h lines 170-260. -/
def resolvePowerModule : PowerModuleType → Except ConfigError PmBranch
  | .undefinedOption => .error (.UndefinedAxis ("_POWER_MODULE_TYPE"))
  | .pmCaseType => .ok ⟨2200, 2200, 2200, 2200, 2200⟩
  | .pmDscType1 => .ok ⟨2500, 2500, 2500, 2500, 2500⟩
  | .pmDscType2 => .ok ⟨4000, 4000, 4000, 4000, 4000⟩
  | .pmHpDriveType => .ok ⟨2000, 2000, 4000, 2000, 2000⟩
  | .pmCVeGTType => .ok ⟨2000, 4000, 4000, 2000, 2000⟩
  | .pmNv74Type => .ok ⟨2000, 4000, 4000, 2000, 2000⟩
  | .pmMvType => .ok ⟨2000, 4000, 2000, 2000, 2000⟩
  | .other => .error (.UndefinedAxis ("_POWER_MODULE_TYPE"))

/-- The _MOT_CUR_SENSOR_TYPE selection chain of SpInvCal.h lines 265-357;
the resolved value is the CUR_SENSOR_RANGE_MOT literal of the chosen branch. -/
def resolveMotCurSensor : MotCurSensorType → Except ConfigError ℚ
  | .undefinedOption => .error (.UndefinedAxis ("_MOT_CUR_SENSOR_TYPE"))
  | .mot400AScaleHall => .ok 400
  | .mot400AScaleShuntType1 => .ok 400
  | .mot500AScaleShuntType1 => .ok 500
  | .mot600AScaleShuntType1 => .ok 588.2353
  | .mot400AScaleShuntType2 => .ok 394.2829
  | .mot500AScaleHall => .ok 500
  | .mot700AScaleHall => .ok 700
  | .mot700AScaleShunt0 => .ok 700
  | .mot850AScaleHall => .ok 850
  | .mot850AScaleHallForHpv => .ok 850
  | .mot1000AScaleHall => .ok 1000
  | .mot1300AScaleHall => .ok 1300
  | .mot1100AScaleHall => .ok 1100
  | .mot1500AScaleHall => .ok 1500
  | .mot700AScaleCoreless => .ok 833.3333
  | .mot700AScaleCorelessType2 => .ok 909.5043
  | .mot650AScaleCorelessType => .ok 682.0567
  | .other => .error (.UndefinedAxis ("_MOT_CUR_SENSOR_TYPE"))

/-- The _SA_2STAGE_PWM_MODE selection chain of CcCalBase.c lines 69-78; the
resolved value is the TestCal_RSPWM_Enb flag of the chosen branch. -/
def resolveSaTwoStage : SaTwoStagePwmMode → Except ConfigError ℚ
  | .twoStgSvpwm => .ok CLR_FLAG
  | .twoStgRspwm => .ok SET_FLAG
  | .other => .error (.UndefinedAxis ("_SA_2STAGE_PWM_MODE"))

/-- The _SA_SQPWM_REGEN_DIS selection chain of CcCalBase.c lines 85-94; the
resolved value is the per-target CcCal_SQPWM_Mode_Regen_Disable entry (both
targets receive the same flag in either branch). -/
def resolveSqpwmRegen : SqpwmRegenDis → Except ConfigError ℚ
  | .sqpwmRegenEnb => .ok CLR_FLAG
  | .sqpwmRegenDis => .ok SET_FLAG
  | .other => .error (.UndefinedAxis ("_SA_SQPWM_REGEN_DIS"))

/-- The _PWM_BURST_MODE selection chain of CcCalBase.c lines 212-234; the
resolved value is the list of per-target burst-mode arrays of the chosen
branch. -/
def resolvePwmBurst : PwmBurstMode → Except ConfigError (List (String × List ℚ))
  | .undefinedOption => .error (.UndefinedAxis ("_PWM_BURST_MODE"))
  | .burstModeEnable => .ok
      [ ("CcCal_PwmOff_MotTqLvl_Max", [1, 0]),
        ("CcCal_PwmOff_MotTqLvl_Min", [0, 0]),
        ("CcCal_PwmOn_MotTqLvl_Max", [2, 0]),
        ("CcCal_PwmOn_MotTqLvl_Min", [0, 0]),
        ("CcCal_PwmOff_WaitTime", [100, 100]) ]
  | .burstModeDisable => .ok
      [ ("CcCal_PwmOff_MotTqLvl_Max", [0, 0]),
        ("CcCal_PwmOff_MotTqLvl_Min", [0, 0]),
        ("CcCal_PwmOn_MotTqLvl_Max", [0, 0]),
        ("CcCal_PwmOn_MotTqLvl_Min", [0, 0]),
        ("CcCal_PwmOff_WaitTime", [100, 100]) ]
  | .other => .error (.UndefinedAxis ("_PWM_BURST_MODE"))

/-- The _VAR_DTGS_OPTION selection chain of CcCalBase.c lines 235-247; the
resolved value is the per-target CcCal_VarDTGS_Enb entry. -/
def resolveVarDtgs : VarDtgsOption → Except ConfigError ℚ
  | .undefinedOption => .error (.UndefinedAxis ("_VAR_DTGS_OPTION"))
  | .varDtgsOptionIncluded => .ok SET_FLAG
  | .varDtgsOptionNotIncluded => .ok CLR_FLAG
  | .other => .error (.UndefinedAxis ("_VAR_DTGS_OPTION"))

/-- The _ETPU_CALCULATION_TIME_OPTION selection chain of BswCfgPwm.h lines
57-87 (both enumerated branches bind the same literals in this data set). -/
def resolveEtpuCalcTime : EtpuCalcTimeOption → Except ConfigError EtpuBranch
  | .undefinedOption => .error (.UndefinedAxis ("_ETPU_CALCULATION_TIME_OPTION"))
  | .singleStageSystem => .ok ⟨3800, 3000, 500, 3500, 9500, 3800, 3000, 0, 3500, 9500⟩
  | .twoStageSystem => .ok ⟨3800, 3000, 500, 3500, 9500, 3800, 3000, 0, 3500, 9500⟩
  | .other => .error (.UndefinedAxis ("_ETPU_CALCULATION_TIME_OPTION"))

/-- The _PWM_UPDATETIME_AUTO_MODE selection chain of BswCfgPwm.h lines 92-106;
the resolved value is the BSWCFGPWM UPDATETIME_AUTO_MODE flag (the same flag
is bound for MOT and HSG in either branch). -/
def resolvePwmUpdAuto : PwmUpdatetimeAutoMode → Except ConfigError ℚ
  | .undefinedOption => .error (.UndefinedAxis ("_PWM_UPDATETIME_AUTO_MODE"))
  | .updatetimeAuto => .ok SET_FLAG
  | .updatetimeManual => .ok CLR_FLAG
  | .other => .error (.UndefinedAxis ("_PWM_UPDATETIME_AUTO_MODE"))

/-- Phase-level defines of the MV/RWD TCAR branch (CcCalPrjCfg.h lines 50-65). -/
def mvTcarDefs : List (String × String) :=
  [ ("_MI_REF_SETTING", "_MI_REF_100"),
    ("_12SMP_COND", "_12SMP_OFF"),
    ("_RPWM_COND", "_RPWM_OFF"),
    ("_NO_LOAD_TQ_COMP_COND", "NO_LOAD_TQ_COMP_OFF"),
    ("_SW_RDC_SETTING", "_MV_EV_TCAR_REAR_SW_RDC"),
    ("_ROC_RPWM_FUNCTION", "_ROC_RPWM_DISABLE"),
    ("_FSW_FSAMP_FREQ", "_7kHz_DOUBLE"),
    ("_OEW_FSW_FSAMP_FREQ", "_OEW_6_5kHz_DOUBLE"),
    ("_ODC_FSW_FSAMP_FREQ", "_ODC_12kHz_SINGLE_ALL"),
    ("_MULTI_DC_METHOD_", "_MULTI_INTEG"),
    ("_MULTI_NON_LINEAR_COMP", "_LENEAR_COMP_ON"),
    ("_CUR_MAP_VERSION", "_MV_TCAR_REAR_CUR_MAP"),
    ("_MOTOR_TYPE", "_MV_TCAR_REAR_MOTOR"),
    ("_POWER_CAL_VERSION", "_MV_EV_TCAR_REAR_154KW_POWER_CAL"),
    ("_DELTA_TRQREF", "_DELTA_TRQREF_4") ]

/-- Phase-level defines of the MV/RWD PROTO branch (CcCalPrjCfg.h lines 80-95). -/
def mvProtoDefs : List (String × String) :=
  [ ("_MI_REF_SETTING", "_MI_REF_103"),
    ("_12SMP_COND", "_12SMP_OFF"),
    ("_RPWM_COND", "_RPWM_01_03_ON"),
    ("_NO_LOAD_TQ_COMP_COND", "NO_LOAD_TQ_COMP_OFF"),
    ("_SW_RDC_SETTING", "_MV_EV_PROTO_REAR_SW_RDC"),
    ("_ROC_RPWM_FUNCTION", "_ROC_RPWM_DISABLE"),
    ("_FSW_FSAMP_FREQ", "_12kHz_SINGLE_ALL"),
    ("_OEW_FSW_FSAMP_FREQ", "_OEW_6_5kHz_DOUBLE"),
    ("_ODC_FSW_FSAMP_FREQ", "_ODC_12kHz_SINGLE_ALL"),
    ("_MULTI_DC_METHOD_", "_MULTI_INTEG"),
    ("_MULTI_NON_LINEAR_COMP", "_LENEAR_COMP_ON"),
    ("_CUR_MAP_VERSION", "_MV_PROTO_REAR_CUR_MAP"),
    ("_MOTOR_TYPE", "_MV_PROTO_REAR_MOTOR"),
    ("_POWER_CAL_VERSION", "_MV_EV_PROTO_REAR_160KW_POWER_CAL"),
    ("_DELTA_TRQREF", "_DELTA_TRQREF_4") ]

/-- Phase-level defines of the MV/RWD MASTER branch (CcCalPrjCfg.h lines
110-125). -/
def mvMasterDefs : List (String × String) :=
  [ ("_MI_REF_SETTING", "_MI_REF_103"),
    ("_12SMP_COND", "_12SMP_OFF"),
    ("_RPWM_COND", "_RPWM_01_03_ON"),
    ("_NO_LOAD_TQ_COMP_COND", "NO_LOAD_TQ_COMP_OFF"),
    ("_SW_RDC_SETTING", "_MV_EV_PROTO_REAR_SW_RDC"),
    ("_ROC_RPWM_FUNCTION", "_ROC_RPWM_DISABLE"),
    ("_FSW_FSAMP_FREQ", "_12kHz_SINGLE_ALL"),
    ("_OEW_FSW_FSAMP_FREQ", "_OEW_12kHz_SINGLE_ALL"),
    ("_ODC_FSW_FSAMP_FREQ", "_ODC_12kHz_SINGLE_ALL"),
    ("_MULTI_DC_METHOD_", "_MULTI_INTEG"),
    ("_MULTI_NON_LINEAR_COMP", "_LENEAR_COMP_ON"),
    ("_CUR_MAP_VERSION", "_MV_PROTO_REAR_CUR_MAP"),
    ("_MOTOR_TYPE", "_MV_PROTO_REAR_MOTOR"),
    ("_POWER_CAL_VERSION", "_MV_EV_PROTO_REAR_160KW_POWER_CAL"),
    ("_DELTA_TRQREF", "_DELTA_TRQREF_4") ]

/-- Phase-level defines shared by the MV/RWD PILOT_1, PILOT_2, M, SOP and RC
branches (CcCalPrjCfg.h lines 140-155, 170-185, 200-215, 230-245, 260-275:
the five phase bodies are literally identical). -/
def mvPilot1Defs : List (String × String) :=
  [ ("_MI_REF_SETTING", "_MI_REF_103"),
    ("_12SMP_COND", "_12SMP_OFF"),
    ("_RPWM_COND", "_RPWM_01_03_ON"),
    ("_NO_LOAD_TQ_COMP_COND", "NO_LOAD_TQ_COMP_OFF"),
    ("_SW_RDC_SETTING", "_MV_EV_P1_REAR_SW_RDC"),
    ("_ROC_RPWM_FUNCTION", "_ROC_RPWM_DISABLE"),
    ("_FSW_FSAMP_FREQ", "_12kHz_SINGLE_ALL"),
    ("_OEW_FSW_FSAMP_FREQ", "_OEW_12kHz_SINGLE_ALL"),
    ("_ODC_FSW_FSAMP_FREQ", "_ODC_12kHz_SINGLE_ALL"),
    ("_MULTI_DC_METHOD_", "_MULTI_INTEG"),
    ("_MULTI_NON_LINEAR_COMP", "_LENEAR_COMP_ON"),
    ("_CUR_MAP_VERSION", "_MV_PROTO_REAR_CUR_MAP"),
    ("_MOTOR_TYPE", "_MV_P2_REAR_MOTOR"),
    ("_POWER_CAL_VERSION", "_MV_EV_PROTO_REAR_160KW_POWER_CAL"),
    ("_DELTA_TRQREF", "_DELTA_TRQREF_4") ]

/-- Market dispatch of the MV project: every MV phase appends one
_TQ_COMP_CAL_VERSION define chosen by _MARKET_VERSION, with the unmatched case
a hard `#error undefined _MARKET_VERSION MACRO`. -/
def mvMarketDispatch (defs : List (String × String)) (naTq restTq : String) :
    MarketVersion → Except ConfigError (List (String × String))
  | .northAmericaVersion => .ok (defs ++ [("_TQ_COMP_CAL_VERSION", naTq)])
  | .domesticVersion => .ok (defs ++ [("_TQ_COMP_CAL_VERSION", restTq)])
  | .europeVersion => .ok (defs ++ [("_TQ_COMP_CAL_VERSION", restTq)])
  | .chinaVersion => .ok (defs ++ [("_TQ_COMP_CAL_VERSION", restTq)])
  | .commonCountryVersion => .ok (defs ++ [("_TQ_COMP_CAL_VERSION", restTq)])
  | .japanVersion => .ok (defs ++ [("_TQ_COMP_CAL_VERSION", restTq)])
  | .other => .error (.UndefinedAxis ("_MARKET_VERSION"))

/-- The _DEVELOPMENT_PHASE dispatch of the MV/RWD project (CcCalPrjCfg.h lines
49-292). -/
def resolveMvPhase : DevelopmentPhase → MarketVersion →
    Except ConfigError (List (String × String))
  | .tcarVersion, mkt =>
      mvMarketDispatch mvTcarDefs ("_MV_EV_TCAR_REAR_TQ_COMP_CAL")
        ("_MV_EV_TCAR_REAR_TQ_COMP_CAL") mkt
  | .protoVersion, mkt =>
      mvMarketDispatch mvProtoDefs ("_MV_EV_PROTO_REAR_TQ_COMP_CAL")
        ("_MV_EV_PROTO_REAR_TQ_COMP_CAL") mkt
  | .masterVersion, mkt =>
      mvMarketDispatch mvMasterDefs ("_MV_EV_PROTO_REAR_TQ_COMP_CAL")
        ("_MV_EV_PROTO_REAR_TQ_COMP_CAL") mkt
  | .pilot1Version, mkt =>
      mvMarketDispatch mvPilot1Defs ("_MVa_EV_P1_REAR_TQ_COMP_CAL")
        ("_MV_EV_P1_REAR_TQ_COMP_CAL") mkt
  | .pilot2Version, mkt =>
      mvMarketDispatch mvPilot1Defs ("_MVa_EV_P1_REAR_TQ_COMP_CAL")
        ("_MV_EV_P1_REAR_TQ_COMP_CAL") mkt
  | .mVersion, mkt =>
      mvMarketDispatch mvPilot1Defs ("_MVa_EV_P1_REAR_TQ_COMP_CAL")
        ("_MV_EV_P1_REAR_TQ_COMP_CAL") mkt
  | .sopVersion, mkt =>
      mvMarketDispatch mvPilot1Defs ("_MVa_EV_P1_REAR_TQ_COMP_CAL")
        ("_MV_EV_P1_REAR_TQ_COMP_CAL") mkt
  | .rcVersion, mkt =>
      mvMarketDispatch mvPilot1Defs ("_MVa_EV_P1_REAR_TQ_COMP_CAL")
        ("_MV_EV_P1_REAR_TQ_COMP_CAL") mkt
  | .other, _ => .error (.UndefinedAxis ("_DEVELOPMENT_PHASE"))

/-- Phase-level defines of the ME/RWD TCAR branch (CcCalPrjCfg.h lines
310-325). -/
def meTcarDefs : List (String × String) :=
  [ ("_MI_REF_SETTING", "_MI_REF_103"),
    ("_12SMP_COND", "_12SMP_OFF"),
    ("_RPWM_COND", "_RPWM_01_03_ON"),
    ("_NO_LOAD_TQ_COMP_COND", "NO_LOAD_TQ_COMP_OFF"),
    ("_SW_RDC_SETTING", "_MV_EV_PROTO_REAR_SW_RDC"),
    ("_ROC_RPWM_FUNCTION", "_ROC_RPWM_DISABLE"),
    ("_FSW_FSAMP_FREQ", "_12kHz_SINGLE_ALL"),
    ("_OEW_FSW_FSAMP_FREQ", "_OEW_6_5kHz_DOUBLE"),
    ("_ODC_FSW_FSAMP_FREQ", "_ODC_12kHz_SINGLE_ALL"),
    ("_MULTI_DC_METHOD_", "_MULTI_INTEG"),
    ("_MULTI_NON_LINEAR_COMP", "_LENEAR_COMP_ON"),
    ("_CUR_MAP_VERSION", "_MV_PROTO_REAR_CUR_MAP"),
    ("_MOTOR_TYPE", "_MV_PROTO_REAR_MOTOR"),
    ("_POWER_CAL_VERSION", "_MV_EV_PROTO_REAR_160KW_POWER_CAL"),
    ("_DELTA_TRQREF", "_DELTA_TRQREF_4") ]

/-- Phase-level defines shared by every ME/RWD phase after TCAR (CcCalPrjCfg.h
lines 341-353 and the identical later phase bodies): unlike MV, _MOTOR_TYPE
and _POWER_CAL_VERSION move into the market branch. -/
def mePhaseDefs (swRdc : String) : List (String × String) :=
  [ ("_MI_REF_SETTING", "_MI_REF_103"),
    ("_12SMP_COND", "_12SMP_OFF"),
    ("_RPWM_COND", "_RPWM_01_03_ON"),
    ("_NO_LOAD_TQ_COMP_COND", "NO_LOAD_TQ_COMP_OFF"),
    ("_SW_RDC_SETTING", swRdc),
    ("_ROC_RPWM_FUNCTION", "_ROC_RPWM_DISABLE"),
    ("_FSW_FSAMP_FREQ", "_12kHz_SINGLE_ALL"),
    ("_OEW_FSW_FSAMP_FREQ", "_OEW_12kHz_SINGLE_ALL"),
    ("_ODC_FSW_FSAMP_FREQ", "_ODC_12kHz_SINGLE_ALL"),
    ("_MULTI_DC_METHOD_", "_MULTI_INTEG"),
    ("_MULTI_NON_LINEAR_COMP", "_LENEAR_COMP_ON"),
    ("_CUR_MAP_VERSION", "_MV_PROTO_REAR_CUR_MAP"),
    ("_DELTA_TRQREF", "_DELTA_TRQREF_4") ]

/-- Market dispatch of the later ME phases: the market branch appends the
_TQ_COMP_CAL_VERSION, _POWER_CAL_VERSION and _MOTOR_TYPE triple. -/
def meMarketDispatch (defs : List (String × String))
    (na rest : List (String × String)) :
    MarketVersion → Except ConfigError (List (String × String))
  | .northAmericaVersion => .ok (defs ++ na)
  | .domesticVersion => .ok (defs ++ rest)
  | .europeVersion => .ok (defs ++ rest)
  | .chinaVersion => .ok (defs ++ rest)
  | .commonCountryVersion => .ok (defs ++ rest)
  | .japanVersion => .ok (defs ++ rest)
  | .other => .error (.UndefinedAxis ("_MARKET_VERSION"))

/-- Market triple of the ME PROTO and MASTER phases for North America. -/
def meNaEarlyTriple : List (String × String) :=
  [ ("_TQ_COMP_CAL_VERSION", "_MVa_EV_P1_REAR_TQ_COMP_CAL"),
    ("_POWER_CAL_VERSION", "_ME_EV_P2_REAR_160KW_POWER_CAL"),
    ("_MOTOR_TYPE", "_ME_P1_REAR_MOTOR") ]

/-- Market triple of the ME PILOT_2, M, SOP and RC phases for the non-NA
markets. -/
def meRestLateTriple : List (String × String) :=
  [ ("_TQ_COMP_CAL_VERSION", "_ME_EV_P2_REAR_TQ_COMP_CAL"),
    ("_POWER_CAL_VERSION", "_ME_EV_P2_REAR_160KW_POWER_CAL"),
    ("_MOTOR_TYPE", "_ME_P1_REAR_MOTOR") ]

/-- The _DEVELOPMENT_PHASE dispatch of the ME/RWD project (CcCalPrjCfg.h lines
309-566). -/
def resolveMePhase : DevelopmentPhase → MarketVersion →
    Except ConfigError (List (String × String))
  | .tcarVersion, mkt =>
      mvMarketDispatch meTcarDefs ("_MV_EV_PROTO_REAR_TQ_COMP_CAL")
        ("_MV_EV_PROTO_REAR_TQ_COMP_CAL") mkt
  | .protoVersion, mkt =>
      meMarketDispatch (mePhaseDefs ("_MV_EV_P1_REAR_SW_RDC")) meNaEarlyTriple
        [ ("_TQ_COMP_CAL_VERSION", "_MV_EV_P1_REAR_TQ_COMP_CAL"),
          ("_POWER_CAL_VERSION", "_MV_EV_PROTO_REAR_160KW_POWER_CAL"),
          ("_MOTOR_TYPE", "_MV_PROTO_REAR_MOTOR") ] mkt
  | .masterVersion, mkt =>
      meMarketDispatch (mePhaseDefs ("_MV_EV_P1_REAR_SW_RDC")) meNaEarlyTriple
        [ ("_TQ_COMP_CAL_VERSION", "_MV_EV_P1_REAR_TQ_COMP_CAL"),
          ("_POWER_CAL_VERSION", "_MV_EV_PROTO_REAR_160KW_POWER_CAL"),
          ("_MOTOR_TYPE", "_MV_PROTO_REAR_MOTOR") ] mkt
  | .pilot1Version, mkt =>
      meMarketDispatch (mePhaseDefs ("_MV_EV_P1_REAR_SW_RDC")) meNaEarlyTriple
        [ ("_TQ_COMP_CAL_VERSION", "_MV_EV_P1_REAR_TQ_COMP_CAL"),
          ("_POWER_CAL_VERSION", "_MV_EV_PROTO_REAR_160KW_POWER_CAL"),
          ("_MOTOR_TYPE", "_ME_P1_REAR_MOTOR") ] mkt
  | .pilot2Version, mkt =>
      meMarketDispatch (mePhaseDefs ("_MV_EV_P1_REAR_SW_RDC")) meNaEarlyTriple
        meRestLateTriple mkt
  | .mVersion, mkt =>
      meMarketDispatch (mePhaseDefs ("_MV_EV_P1_REAR_SW_RDC")) meNaEarlyTriple
        meRestLateTriple mkt
  | .sopVersion, mkt =>
      meMarketDispatch (mePhaseDefs ("_MV_EV_P1_REAR_SW_RDC")) meNaEarlyTriple
        meRestLateTriple mkt
  | .rcVersion, mkt =>
      meMarketDispatch (mePhaseDefs ("_MV_EV_P1_REAR_SW_RDC")) meNaEarlyTriple
        meRestLateTriple mkt
  | .other, _ => .error (.UndefinedAxis ("_DEVELOPMENT_PHASE"))

/-- Guard of the _PERFORMANCE_TYPE axis: the six enumerated versions share one
disjunctive branch; anything else is `#error undefined _PERFORMANCE_TYPE`. -/
def performanceTypeMatches : PerformanceType → Bool
  | .other => false
  | _ => true

/-- The project-configuration resolution of CcCalPrjCfg.h: nested dispatch on
_PROJECT_NAME, _PERFORMANCE_TYPE, _DEVELOPMENT_PHASE and _MARKET_VERSION.
The unmatched _PROJECT_NAME case (lines 572-578) intentionally emits NO
`#error` and binds nothing: the generator comment records that the
project-undeclared error was deleted when the headers were split. -/
def resolvePrjCfg (prj : ProjectName) (perf : PerformanceType)
    (phase : DevelopmentPhase) (mkt : MarketVersion) :
    Except ConfigError (List (String × String)) :=
  match prj with
  | .mvRwdProj =>
      if performanceTypeMatches perf then resolveMvPhase phase mkt
      else .error (.UndefinedAxis ("_PERFORMANCE_TYPE"))
  | .meRwdProj =>
      if performanceTypeMatches perf then resolveMePhase phase mkt
      else .error (.UndefinedAxis ("_PERFORMANCE_TYPE"))
  | .other => .ok []

/-- Configuration macros consumed by CcCalBase.c / BswCfgPwm.c whose defining
headers (common.h and the HSG sensor specification) are not part of this
repository.  Modelled from the spec: these are axis-independent literal inputs
supplied by the build environment; the resolver is a pure function of them. -/
structure MissingCfg where
  DEFAULT_OFFSET_MOT : ℚ
  DEFAULT_OFFSET_HSG : ℚ
  RESOLVER_DIRECTION_MOT : ℚ
  RESOLVER_DIRECTION_HSG : ℚ
  CUR_SENSOR_RANGE_HSG : ℚ
  HVBATT_SENSOR_RANGE : ℚ
  HVBATT_SENSOR_RANGE_TYP : ℚ
  LVBATT_SENSOR_RANGE : ℚ
  LVBATT_SENSOR_RANGE_OFFSET : ℚ
  LVBATT_SENSOR_RANGE_TYP : ℚ
  ITRCPX_SAMPLMODE_DOUBLE : ℚ
deriving DecidableEq, Repr

/-- CUR_SENSOR_SCALE for a sensor range (CcCalBase.h lines 55 and 59): the
scale constant is range * 0.00061035 for both targets. -/
def curSensorScale (range : ℚ) : ℚ := range * 0.00061035

/-- BSWCFGRDC_MOT_PERIOD (BswCfgRdc.h line 68, unit us). -/
def BSWCFGRDC_MOT_PERIOD : Nat := 66

/-- BSWCFGRDC_MOT_START_OFFSET (BswCfgRdc.h line 69, unit us). -/
def BSWCFGRDC_MOT_START_OFFSET : Nat := 5

/-- BSWCFGRDC_MOT_UNITRIG_START_OFFSET (BswCfgRdc.h line 70, unit us). -/
def BSWCFGRDC_MOT_UNITRIG_START_OFFSET : Nat := 33005

/-- BSWCFGRDC_HSG_PERIOD (BswCfgRdc.h line 73, unit us). -/
def BSWCFGRDC_HSG_PERIOD : Nat := 66

/-- BSWCFGRDC_HSG_START_OFFSET (BswCfgRdc.h line 74, unit us). -/
def BSWCFGRDC_HSG_START_OFFSET : Nat := 30

/-- BSWCFGRDC_HSG_UNITRIG_START_OFFSET (BswCfgRdc.h line 75, unit us). -/
def BSWCFGRDC_HSG_UNITRIG_START_OFFSET : Nat := 33030

/-- BswCfgCal_Rdc_MotPeriod (BswCfgRdc.c line 35). -/
def BswCfgCal_Rdc_MotPeriod : Nat := BSWCFGRDC_MOT_PERIOD

/-- BswCfgCal_Rdc_MotStartOffset (BswCfgRdc.c line 36; FLOAT32 in the
source, the integer literal 5 converted exactly). -/
def BswCfgCal_Rdc_MotStartOffset : ℚ := BSWCFGRDC_MOT_START_OFFSET

/-- BswCfgCal_Rdc_MotUnitrigStartOffset (BswCfgRdc.c line 46). -/
def BswCfgCal_Rdc_MotUnitrigStartOffset : Nat := BSWCFGRDC_MOT_UNITRIG_START_OFFSET

/-- BswCfgCal_Rdc_HsgPeriod (BswCfgRdc.c line 47). -/
def BswCfgCal_Rdc_HsgPeriod : Nat := BSWCFGRDC_HSG_PERIOD

/-- BswCfgCal_Rdc_HsgStartOffset (BswCfgRdc.c line 48). -/
def BswCfgCal_Rdc_HsgStartOffset : ℚ := BSWCFGRDC_HSG_START_OFFSET

/-- BswCfgCal_Rdc_HsgUnitrigStartOffset (BswCfgRdc.c line 58). -/
def BswCfgCal_Rdc_HsgUnitrigStartOffset : Nat := BSWCFGRDC_HSG_UNITRIG_START_OFFSET

/-- BSWCFGRDC_MOT_K1_D (BswCfgRdc.h line 44): the MOT resolver float gain. -/
def BSWCFGRDC_MOT_K1_D : ℚ := 0.5605666

/-- BSWCFGRDC_MOT_K2_D (BswCfgRdc.h line 45). -/
def BSWCFGRDC_MOT_K2_D : ℚ := 0.7535489

/-- BSWCFGRDC_MOT_K1_SCALE (BswCfgRdc.h line 46). -/
def BSWCFGRDC_MOT_K1_SCALE : Nat := 6

/-- BSWCFGRDC_MOT_K2_SCALE (BswCfgRdc.h line 47). -/
def BSWCFGRDC_MOT_K2_SCALE : Nat := 5

/-- Conversion of a double initializer expression to `signed long` as performed
by C: truncation toward zero.  Every initializer it is applied to in this data
set is positive, where truncation toward zero coincides with the floor. -/
def ratTrunc (q : ℚ) : Int := ⌊q⌋

/-- CcCal_SWRDC_GainUpdate_K1D entry (CcCalBase.c line 102): the double
expression 0.64339817*0x800000 converted to signed long; both targets receive
the same value. -/
def CcCal_SWRDC_GainUpdate_K1D_val : Int := ratTrunc ((0.64339817 : ℚ) * 0x800000)

/-- CcCal_SWRDC_GainUpdate_K1SCALE entry (CcCalBase.c line 103). -/
def CcCal_SWRDC_GainUpdate_K1SCALE_val : Nat := 7

/-- CcCal_SWRDC_GainUpdate_K2D entry (CcCalBase.c line 104): the double
expression 0.99471843*0x800000 converted to signed long. -/
def CcCal_SWRDC_GainUpdate_K2D_val : Int := ratTrunc ((0.99471843 : ℚ) * 0x800000)

/-- CcCal_SWRDC_GainUpdate_K2SCALE entry (CcCalBase.c line 105). -/
def CcCal_SWRDC_GainUpdate_K2SCALE_val : Nat := 4

/-- FSW_TAB (CcCalBase.c lines 138-143): a TOTAL_TARGET-indexed table of
VARIABLE_FSW_TAB_OUT_SIZE switching frequencies, MOT row first. -/
def FSW_TAB : List (List ℚ) :=
  [ [4000, 4000, 4000, 4000, 4000, 4000, 4000, 4000, 4000],
    [4000, 4000, 4000, 4000, 4000, 4000, 4000, 4000, 4000] ]

/-- MAGINJ_TAB (CcCalBase.c lines 171-176): a TOTAL_TARGET-indexed table,
MOT row first. -/
def MAGINJ_TAB : List (List ℚ) :=
  [ [0, 0, 0, 0, 0, 0, 0, 0, 0],
    [0, 0, 0, 0, 0, 0, 0, 0, 0] ]

/-- The one-dimensional TOTAL_TARGET-indexed constant arrays of the CAL data
section of CcCalBase.c, in source order, each as its name paired with its
two-element initializer list { MOT entry, HSG entry }.  The axis-dependent
fragments (SQPWM regen flag, burst-mode block, VarDTGS enable flag) are passed
in already resolved; `motRange` is the CUR_SENSOR_RANGE_MOT literal of the
resolved _MOT_CUR_SENSOR_TYPE branch and `pm` the resolved dead-time branch. -/
def ccCalPerTargetArrays (p : MissingCfg) (motRange : ℚ) (pm : PmBranch)
    (sqpwmDis : ℚ) (burstFrag : List (String × List ℚ)) (varDtgsEnb : ℚ) :
    List (String × List ℚ) :=
  [ ("BswCfgCal_Rsv_DefaultOffset", [p.DEFAULT_OFFSET_MOT, p.DEFAULT_OFFSET_HSG]),
    ("BswCfgCal_Rsv_RotDir", [p.RESOLVER_DIRECTION_MOT, p.RESOLVER_DIRECTION_HSG]),
    ("CcCal_SQPWM_Mode_Regen_Disable", [sqpwmDis, sqpwmDis]),
    ("CcCal_Motor_frated", [0, 0]),
    ("CcCal_SWRDC_GainUpdateCal", [CLR_FLAG, CLR_FLAG]),
    ("CcCal_SWRDC_GainUpdate_K1D",
      [(CcCal_SWRDC_GainUpdate_K1D_val : ℚ), (CcCal_SWRDC_GainUpdate_K1D_val : ℚ)]),
    ("CcCal_SWRDC_GainUpdate_K1SCALE",
      [(CcCal_SWRDC_GainUpdate_K1SCALE_val : ℚ), (CcCal_SWRDC_GainUpdate_K1SCALE_val : ℚ)]),
    ("CcCal_SWRDC_GainUpdate_K2D",
      [(CcCal_SWRDC_GainUpdate_K2D_val : ℚ), (CcCal_SWRDC_GainUpdate_K2D_val : ℚ)]),
    ("CcCal_SWRDC_GainUpdate_K2SCALE",
      [(CcCal_SWRDC_GainUpdate_K2SCALE_val : ℚ), (CcCal_SWRDC_GainUpdate_K2SCALE_val : ℚ)]),
    ("CcCal_SWRDC_GainUpdate_NaturalFreq", [200, 200]),
    ("CcCal_SWRDC_GainUpdate_DampFac", [1, 1]),
    ("CcCal_ToggleEnb", [CLR_FLAG, CLR_FLAG]),
    ("CcCal_Fsamp_High_Limit", [19800, 19700]),
    ("CcCal_Motor_Ld", [0.00016, 0.0002]),
    ("CcCal_Motor_Lq", [0.00027, 0.0004]),
    ("CcCal_Motor_Llk", [0.003, 0.0003]),
    ("CcCal_DaxisCurCtrlBW", [350, 350]),
    ("CcCal_QaxisCurCtrlBW", [350, 350]),
    ("CcCal_NaxisCurCtrlBW", [350, 350]),
    ("CcCal_PaxisCurCtrlBW", [350, 350]),
    ("CcCal_SWRDC_Speed_Override", [CLR_FLAG, CLR_FLAG]),
    ("CcCal_Cur_lag", [0, 0]),
    ("CcCal_BETC_SetFlag", [CLR_FLAG, CLR_FLAG]),
    ("CcCal_BETC_CoeffLAMpm_Tmp", [0.001, 0.001]),
    ("CcCal_BETC_LAMpmAt90MAP", [0.052, 0.052]),
    ("CcCal_BETC_EndCnt", [3, 3]),
    ("CcCal_BETC_DeltaTmpComp_Lmt", [40, 40]),
    ("CcCal_DeadTimeCompEnb", [SET_FLAG, SET_FLAG]),
    ("CcCal_DeadTimeComp_INVIcompZCC_INV1",
      [1 / (motRange * 0.05), 1 / (p.CUR_SENSOR_RANGE_HSG * 0.05)]),
    ("CcCal_DeadTimeComp_INVIcompZCC_INV2",
      [1 / (motRange * 0.05), 1 / (p.CUR_SENSOR_RANGE_HSG * 0.05)]),
    ("CcCal_DeadTimeComp_TdeadComp_INV1",
      [((pm.MOT_INV1_DEADTIME : ℚ) - 100) * 0.000000001,
       ((pm.HSG_INV1_DEADTIME : ℚ) - 100) * 0.000000001]),
    ("CcCal_DeadTimeComp_TdeadComp_INV2",
      [((pm.MOT_INV2_DEADTIME : ℚ) - 100) * 0.000000001,
       ((pm.HSG_INV2_DEADTIME : ℚ) - 100) * 0.000000001]),
    ("CcCal_DeadTimeComp_IcompZCC_INV1",
      [motRange * 0.05, p.CUR_SENSOR_RANGE_HSG * 0.05]),
    ("CcCal_DeadTimeComp_IcompZCC_INV2",
      [motRange * 0.05, p.CUR_SENSOR_RANGE_HSG * 0.05]),
    ("CcCal_CurA_InitialOffset", [2048, 2048]),
    ("CcCal_CurB_InitialOffset", [2048, 2048]),
    ("CcCal_CurC_InitialOffset", [2048, 2048]),
    ("CcCal_Cur_ScaleFactor",
      [curSensorScale motRange, curSensorScale p.CUR_SENSOR_RANGE_HSG]),
    ("CcCal_HvBatt_InitialOffset", [0, 0]),
    ("CcCal_HvBatt_ScaleFactor",
      [(p.HVBATT_SENSOR_RANGE / p.HVBATT_SENSOR_RANGE_TYP) * 0.0012207,
       (p.HVBATT_SENSOR_RANGE / p.HVBATT_SENSOR_RANGE_TYP) * 0.0012207]),
    ("CcCal_OffsetValidityChk_ZeroCurOverride", [SET_FLAG, SET_FLAG]),
    ("CcCal_LvAdToPhyOffset",
      [p.LVBATT_SENSOR_RANGE_OFFSET, p.LVBATT_SENSOR_RANGE_OFFSET]),
    ("CcCal_LvAdToPhySclFct",
      [((p.LVBATT_SENSOR_RANGE - p.LVBATT_SENSOR_RANGE_OFFSET) / p.LVBATT_SENSOR_RANGE_TYP) * 0.0012207,
       ((p.LVBATT_SENSOR_RANGE - p.LVBATT_SENSOR_RANGE_OFFSET) / p.LVBATT_SENSOR_RANGE_TYP) * 0.0012207]) ]
  ++ burstFrag ++
  [ ("CcCal_VarDTGS_Enb", [varDtgsEnb, varDtgsEnb]),
    ("CcCal_VarDTGS_MotTqLvl1_Max_HysIn", [80, 0]),
    ("CcCal_VarDTGS_MotTqLvl1_Min_HysIn", [-45, 0]),
    ("CcCal_VarDTGS_MotSpdLvl1_Max_HysIn", [8200, 0]),
    ("CcCal_VarDTGS_MotSpdLvl1_Min_HysIn", [866, 0]),
    ("CcCal_VarDTGS_MotTqLvl1_Max_HysOut", [88, 0]),
    ("CcCal_VarDTGS_MotTqLvl1_Min_HysOut", [-50, 0]),
    ("CcCal_VarDTGS_MotSpdLvl1_Max_HysOut", [8500, 0]),
    ("CcCal_VarDTGS_MotSpdLvl1_Min_HysOut", [709, 0]),
    ("CcCal_VarDTGS_MotTqLvl2_Max_HysIn", [0, 0]),
    ("CcCal_VarDTGS_MotTqLvl2_Min_HysIn", [0, 0]),
    ("CcCal_VarDTGS_MotSpdLvl2_Max_HysIn", [0, 0]),
    ("CcCal_VarDTGS_MotSpdLvl2_Min_HysIn", [0, 0]),
    ("CcCal_VarDTGS_MotTqLvl2_Max_HysOut", [0, 0]),
    ("CcCal_VarDTGS_MotTqLvl2_Min_HysOut", [0, 0]),
    ("CcCal_VarDTGS_MotSpdLvl2_Max_HysOut", [0, 0]),
    ("CcCal_VarDTGS_MotSpdLvl2_Min_HysOut", [0, 0]),
    ("CcCal_VarDTGS_MotTqLvl3_Max_HysIn", [0, 0]),
    ("CcCal_VarDTGS_MotTqLvl3_Min_HysIn", [0, 0]),
    ("CcCal_VarDTGS_MotSpdLvl3_Max_HysIn", [0, 0]),
    ("CcCal_VarDTGS_MotSpdLvl3_Min_HysIn", [0, 0]),
    ("CcCal_VarDTGS_MotTqLvl3_Max_HysOut", [0, 0]),
    ("CcCal_VarDTGS_MotTqLvl3_Min_HysOut", [0, 0]),
    ("CcCal_VarDTGS_MotSpdLvl3_Max_HysOut", [0, 0]),
    ("CcCal_VarDTGS_MotSpdLvl3_Min_HysOut", [0, 0]) ]

/-- The axis selections consumed by the CcCalBase.c translation unit. -/
structure CalCtx where
  powerModule : PowerModuleType
  motCurSensor : MotCurSensorType
  saTwoStage : SaTwoStagePwmMode
  sqpwm : SqpwmRegenDis
  pwmBurst : PwmBurstMode
  varDtgs : VarDtgsOption
deriving DecidableEq, Repr

/-- Resolution of the per-target CAL data of CcCalBase.c: the axis chains of
the include closure (SpInvCal.h is processed before the CAL data section) and
of the CAL section itself are resolved in preprocessing order, and the first
`#error` aborts the build; on success the full per-target table is produced. -/
def resolveCcCalBase (c : CalCtx) (p : MissingCfg) :
    Except ConfigError (List (String × List ℚ)) :=
  match resolvePowerModule c.powerModule with
  | .error e => .error e
  | .ok pm =>
    match resolveMotCurSensor c.motCurSensor with
    | .error e => .error e
    | .ok motRange =>
      match resolveSaTwoStage c.saTwoStage with
      | .error e => .error e
      | .ok _rspwmEnb =>
        match resolveSqpwmRegen c.sqpwm with
        | .error e => .error e
        | .ok sqpwmDis =>
          match resolvePwmBurst c.pwmBurst with
          | .error e => .error e
          | .ok burstFrag =>
            match resolveVarDtgs c.varDtgs with
            | .error e => .error e
            | .ok varDtgsEnb =>
              .ok (ccCalPerTargetArrays p motRange pm sqpwmDis burstFrag varDtgsEnb)

/-- The axis selections consumed by the BswCfgPwm.c translation unit. -/
structure PwmCtx where
  gateIc : GateIcType
  powerModule : PowerModuleType
  etpu : EtpuCalcTimeOption
  updAuto : PwmUpdatetimeAutoMode
deriving DecidableEq, Repr

/-- Resolution of the BswCfgCal_Pwm constants of BswCfgPwm.c lines 35-63:
fixed micom literals from BswCfgPwm.h, dead times from the power-module
branch, minimum pulse widths and ASAC edge offsets from the gate-IC branch,
update times and eTPU loads from the eTPU-calculation-time branch. -/
def resolveBswCfgPwm (c : PwmCtx) (p : MissingCfg) :
    Except ConfigError (List (String × ℚ)) :=
  match resolveGateIc c.gateIc with
  | .error e => .error e
  | .ok g =>
    match resolvePowerModule c.powerModule with
    | .error e => .error e
    | .ok pm =>
      match resolveEtpuCalcTime c.etpu with
      | .error e => .error e
      | .ok et =>
        match resolvePwmUpdAuto c.updAuto with
        | .error e => .error e
        | .ok autoMode =>
          .ok
            [ ("BswCfgCal_Pwm_MotStartTime", 125000),
              ("BswCfgCal_Pwm_MotPeriod", 250000),
              ("BswCfgCal_Pwm_MotDeadTime_INV1", (pm.MOT_INV1_DEADTIME : ℚ)),
              ("BswCfgCal_Pwm_MotDeadTime_INV2", (pm.MOT_INV2_DEADTIME : ℚ)),
              ("BswCfgCal_Pwm_MotDeadTime_Multi", (pm.MOT_DEADTIME_MULTI : ℚ)),
              ("BswCfgCal_Pwm_MotMinPulseWidth_INV1", (g.MOT_INV1_MIN_WIDTH : ℚ)),
              ("BswCfgCal_Pwm_MotMinPulseWidth_INV2", (g.MOT_INV2_MIN_WIDTH : ℚ)),
              ("BswCfgCal_Pwm_MotUpdateTime_INV1", (et.MOT_INV1_UPDATE_TIME : ℚ)),
              ("BswCfgCal_Pwm_MotUpdateTime_INV2", (et.MOT_INV2_UPDATE_TIME : ℚ)),
              ("BswCfgCal_Pwm_MotPwmMode", p.ITRCPX_SAMPLMODE_DOUBLE),
              ("BswCfgCal_Pwm_MotAsacEdgeOffset", (g.MOT_ASAC_EDGE_OFFSET : ℚ)),
              ("BswCfgCal_Pwm_MotUpdatetime_AutoMode", autoMode),
              ("BswCfgCal_Pwm_MoteTPULoad_SYNC", (et.MOT_eTPULoad_SYNC : ℚ)),
              ("BswCfgCal_Pwm_MoteTPULoad_RSLV", (et.MOT_eTPULoad_RSLV : ℚ)),
              ("BswCfgCal_Pwm_MoteTPULoad_PWM", (et.MOT_eTPULoad_PWM : ℚ)),
              ("BswCfgCal_Pwm_HsgStartTime", 125000),
              ("BswCfgCal_Pwm_HsgPeriod", 250000),
              ("BswCfgCal_Pwm_HsgDeadTime_INV1", (pm.HSG_INV1_DEADTIME : ℚ)),
              ("BswCfgCal_Pwm_HsgDeadTime_INV2", (pm.HSG_INV2_DEADTIME : ℚ)),
              ("BswCfgCal_Pwm_HsgMinPulseWidth_INV1", (g.HSG_INV1_MIN_WIDTH : ℚ)),
              ("BswCfgCal_Pwm_HsgMinPulseWidth_INV2", (g.HSG_INV2_MIN_WIDTH : ℚ)),
              ("BswCfgCal_Pwm_HsgUpdateTime_INV1", (et.HSG_INV1_UPDATE_TIME : ℚ)),
              ("BswCfgCal_Pwm_HsgUpdateTime_INV2", (et.HSG_INV2_UPDATE_TIME : ℚ)),
              ("BswCfgCal_Pwm_HsgPwmMode", p.ITRCPX_SAMPLMODE_DOUBLE),
              ("BswCfgCal_Pwm_HsgAsacEdgeOffset", (g.HSG_ASAC_EDGE_OFFSET : ℚ)),
              ("BswCfgCal_Pwm_HsgUpdatetime_AutoMode", autoMode),
              ("BswCfgCal_Pwm_HsgeTPULoad_SYNC", (et.HSG_eTPULoad_SYNC : ℚ)),
              ("BswCfgCal_Pwm_HsgeTPULoad_RSLV", (et.HSG_eTPULoad_RSLV : ℚ)),
              ("BswCfgCal_Pwm_HsgeTPULoad_PWM", (et.HSG_eTPULoad_PWM : ℚ)) ]

/-- Dead-time compensation formula.  Modelled from the spec: compensation =
(dead time minus the fixed 100 ns offset) scaled by 1e-9 to seconds; stated
separately from the table so the stored entries can be checked against it. -/
def tdeadCompSpec (deadtimeNs : ℚ) : ℚ := (deadtimeNs - 100) * 0.000000001

/-- On success, the CcCalBase resolution is exactly the per-target table built
from the six successfully resolved axis branches. -/
theorem resolveCcCalBase_ok_shape (c : CalCtx) (p : MissingCfg)
    (t : List (String × List ℚ)) (h : resolveCcCalBase c p = Except.ok t) :
    ∃ pm motRange rspwmEnb sqpwmDis burstFrag varDtgsEnb,
      resolvePowerModule c.powerModule = Except.ok pm ∧
      resolveMotCurSensor c.motCurSensor = Except.ok motRange ∧
      resolveSaTwoStage c.saTwoStage = Except.ok rspwmEnb ∧
      resolveSqpwmRegen c.sqpwm = Except.ok sqpwmDis ∧
      resolvePwmBurst c.pwmBurst = Except.ok burstFrag ∧
      resolveVarDtgs c.varDtgs = Except.ok varDtgsEnb ∧
      t = ccCalPerTargetArrays p motRange pm sqpwmDis burstFrag varDtgsEnb := by
  unfold resolveCcCalBase at h
  split at h
  · simp at h
  rename_i pm hpm
  split at h
  · simp at h
  rename_i motRange hmr
  split at h
  · simp at h
  rename_i rspwmEnb hrs
  split at h
  · simp at h
  rename_i sqpwmDis hsq
  split at h
  · simp at h
  rename_i burstFrag hb
  split at h
  · simp at h
  rename_i varDtgsEnb hvd
  simp only [Except.ok.injEq] at h
  exact ⟨pm, motRange, rspwmEnb, sqpwmDis, burstFrag, varDtgsEnb,
    hpm, hmr, hrs, hsq, hb, hvd, h.symm⟩

/-- Every CUR_SENSOR_RANGE_MOT literal of the enumerated sensor branches is
nonzero. -/
theorem resolveMotCurSensor_ok_ne_zero (v : MotCurSensorType) (r : ℚ)
    (h : resolveMotCurSensor v = Except.ok r) : r ≠ 0 := by
  cases v <;> simp [resolveMotCurSensor] at h <;> subst h <;> norm_num

/-- Both branches of the burst-mode chain bind five two-entry arrays. -/
theorem resolvePwmBurst_ok_all_length (b : PwmBurstMode)
    (frag : List (String × List ℚ)) (h : resolvePwmBurst b = Except.ok frag) :
    (frag.all fun a => a.2.length == TOTAL_TARGET) = true := by
  cases b <;> simp [resolvePwmBurst] at h <;> subst h <;> rfl

/-- The arity bound of the assembled table, given it for the burst fragment. -/
theorem ccCalPerTargetArrays_all_length (p : MissingCfg) (motRange : ℚ)
    (pm : PmBranch) (sqpwmDis : ℚ) (burstFrag : List (String × List ℚ))
    (varDtgsEnb : ℚ)
    (hf : (burstFrag.all fun a => a.2.length == TOTAL_TARGET) = true) :
    ∀ a ∈ ccCalPerTargetArrays p motRange pm sqpwmDis burstFrag varDtgsEnb,
      a.2.length = TOTAL_TARGET := by
  intro a ha
  have hall : ((ccCalPerTargetArrays p motRange pm sqpwmDis burstFrag
      varDtgsEnb).all fun a => a.2.length == TOTAL_TARGET) = true := by
    simp only [ccCalPerTargetArrays, List.all_append, hf, Bool.and_true]
    rfl
  exact beq_iff_eq.mp (List.all_eq_true.mp hall a ha)

/-- A fixed fully-valid Resolution Context for the CcCalBase translation unit:
case-type power module, 400 A hall motor current sensor, SVPWM two-stage mode,
regen enabled, burst mode enabled, variable DTGS included. -/
def ctx400 : CalCtx :=
  ⟨.pmCaseType, .mot400AScaleHall, .twoStgSvpwm, .sqpwmRegenEnb,
    .burstModeEnable, .varDtgsOptionIncluded⟩

/-- A fixed Resolution Context whose power-module axis carries the undefined
sentinel, with every other axis valid. -/
def ctxPmUndef : CalCtx :=
  ⟨.undefinedOption, .mot400AScaleHall, .twoStgSvpwm, .sqpwmRegenEnb,
    .burstModeEnable, .varDtgsOptionIncluded⟩

/-- A fixed assignment of the externally supplied literals: arbitrary concrete
values for the missing-header macros (any values serve, the resolver branches
only on the axis selections). -/
def cfg0 : MissingCfg := ⟨88.9, 95.1, 1, 2, 400, 500, 450, 18, 4, 12, 3⟩

/-- The table resolved at `ctx400` / `cfg0`. -/
def tbl400 : List (String × List ℚ) :=
  (resolveCcCalBase ctx400 cfg0).toOption.getD []

/-- A fixed Resolution Context for the BswCfgPwm translation unit selecting
gate-IC type 7. -/
def pwmCtx7 : PwmCtx :=
  ⟨.gateIcType7, .pmCaseType, .singleStageSystem, .updatetimeAuto⟩

/-- C1 counterexample: a _PROJECT_NAME value matching none of the enumerated
branch guards does NOT fail resolution — CcCalPrjCfg.h lines 572-578 carry no
`#error` for the unmatched project (the generator deleted it), so the project
axis falls through silently to an empty binding set, contradicting the claim
that every Configuration Axis hard-fails with UndefinedAxis. -/
theorem undefined_project_name_falls_through :
    resolvePrjCfg .other .other .other .other = Except.ok [] := rfl

/-- C1 amended: for every Configuration Axis EXCEPT the project name — the
performance type, development phase, market, gate-IC type, power-module type,
current-sensor type, PWM burst mode, variable-DTGS option, eTPU
calculation-time option (and the two-stage PWM and SQPWM-regen axes of
CcCalBase.c) — an axis value matching none of the enumerated branch guards
fails resolution with a hard UndefinedAxis error naming that axis; the
project-name axis alone falls through without error to an empty binding set. -/
theorem axis_guard_exhaustiveness_amended :
    resolvePrjCfg .mvRwdProj .other .tcarVersion .northAmericaVersion
      = Except.error (.UndefinedAxis ("_PERFORMANCE_TYPE")) ∧
    resolvePrjCfg .meRwdProj .other .tcarVersion .northAmericaVersion
      = Except.error (.UndefinedAxis ("_PERFORMANCE_TYPE")) ∧
    resolvePrjCfg .mvRwdProj .standardVersion .other .northAmericaVersion
      = Except.error (.UndefinedAxis ("_DEVELOPMENT_PHASE")) ∧
    resolvePrjCfg .meRwdProj .standardVersion .other .northAmericaVersion
      = Except.error (.UndefinedAxis ("_DEVELOPMENT_PHASE")) ∧
    resolvePrjCfg .mvRwdProj .standardVersion .tcarVersion .other
      = Except.error (.UndefinedAxis ("_MARKET_VERSION")) ∧
    resolvePrjCfg .meRwdProj .standardVersion .protoVersion .other
      = Except.error (.UndefinedAxis ("_MARKET_VERSION")) ∧
    resolveGateIc .undefinedOption = Except.error (.UndefinedAxis ("_GATE_IC_TYPE")) ∧
    resolveGateIc .other = Except.error (.UndefinedAxis ("_GATE_IC_TYPE")) ∧
    resolvePowerModule .undefinedOption
      = Except.error (.UndefinedAxis ("_POWER_MODULE_TYPE")) ∧
    resolvePowerModule .other = Except.error (.UndefinedAxis ("_POWER_MODULE_TYPE")) ∧
    resolveMotCurSensor .undefinedOption
      = Except.error (.UndefinedAxis ("_MOT_CUR_SENSOR_TYPE")) ∧
    resolveMotCurSensor .other
      = Except.error (.UndefinedAxis ("_MOT_CUR_SENSOR_TYPE")) ∧
    resolvePwmBurst .undefinedOption
      = Except.error (.UndefinedAxis ("_PWM_BURST_MODE")) ∧
    resolvePwmBurst .other = Except.error (.UndefinedAxis ("_PWM_BURST_MODE")) ∧
    resolveVarDtgs .undefinedOption
      = Except.error (.UndefinedAxis ("_VAR_DTGS_OPTION")) ∧
    resolveVarDtgs .other = Except.error (.UndefinedAxis ("_VAR_DTGS_OPTION")) ∧
    resolveEtpuCalcTime .undefinedOption
      = Except.error (.UndefinedAxis ("_ETPU_CALCULATION_TIME_OPTION")) ∧
    resolveEtpuCalcTime .other
      = Except.error (.UndefinedAxis ("_ETPU_CALCULATION_TIME_OPTION")) ∧
    resolveSaTwoStage .other = Except.error (.UndefinedAxis ("_SA_2STAGE_PWM_MODE")) ∧
    resolveSqpwmRegen .other = Except.error (.UndefinedAxis ("_SA_SQPWM_REGEN_DIS")) ∧
    resolvePrjCfg .other .standardVersion .tcarVersion .northAmericaVersion
      = Except.ok [] :=
  ⟨rfl, rfl, rfl, rfl, rfl, rfl, rfl, rfl, rfl, rfl, rfl, rfl, rfl, rfl,
    rfl, rfl, rfl, rfl, rfl, rfl, rfl⟩

/-- C2: for every Resolution Context and externally supplied literal set, on
successful resolution every per-target array of the CcCalBase table has
exactly TOTAL_TARGET = 2 entries, and the arrays keep the fixed order motor
entry first, HSG entry second (witnessed on the target-labelled resolver and
sensor-scale arrays), the same order as the TOTAL_TARGET-row tables FSW_TAB
and MAGINJ_TAB. -/
theorem per_target_array_arity_and_order (c : CalCtx) (p : MissingCfg)
    (t : List (String × List ℚ)) (h : resolveCcCalBase c p = Except.ok t) :
    (∀ a ∈ t, a.2.length = TOTAL_TARGET) ∧
    List.lookup ("BswCfgCal_Rsv_DefaultOffset") t
      = some [p.DEFAULT_OFFSET_MOT, p.DEFAULT_OFFSET_HSG] ∧
    (∃ r, resolveMotCurSensor c.motCurSensor = Except.ok r ∧
      List.lookup ("CcCal_Cur_ScaleFactor") t
        = some [curSensorScale r, curSensorScale p.CUR_SENSOR_RANGE_HSG]) ∧
    FSW_TAB.length = TOTAL_TARGET ∧ MAGINJ_TAB.length = TOTAL_TARGET := by
  obtain ⟨pm, motRange, rspwmEnb, sqpwmDis, burstFrag, varDtgsEnb,
    hpm, hmr, hrs, hsq, hb, hvd, ht⟩ := resolveCcCalBase_ok_shape c p t h
  subst ht
  exact ⟨ccCalPerTargetArrays_all_length p motRange pm sqpwmDis burstFrag
      varDtgsEnb (resolvePwmBurst_ok_all_length c.pwmBurst burstFrag hb),
    rfl, ⟨motRange, hmr, rfl⟩, rfl, rfl⟩

/-- C2 witness at the concrete context `ctx400` and literal set `cfg0`. -/
theorem per_target_array_arity_and_order_witness :
    (∀ a ∈ tbl400, a.2.length = TOTAL_TARGET) ∧
    List.lookup ("BswCfgCal_Rsv_DefaultOffset") tbl400
      = some [cfg0.DEFAULT_OFFSET_MOT, cfg0.DEFAULT_OFFSET_HSG] ∧
    (∃ r, resolveMotCurSensor ctx400.motCurSensor = Except.ok r ∧
      List.lookup ("CcCal_Cur_ScaleFactor") tbl400
        = some [curSensorScale r, curSensorScale cfg0.CUR_SENSOR_RANGE_HSG]) ∧
    FSW_TAB.length = TOTAL_TARGET ∧ MAGINJ_TAB.length = TOTAL_TARGET :=
  per_target_array_arity_and_order ctx400 cfg0 tbl400 rfl

/-- C3: the resolution of the CcCalBase table is a pure, deterministic
function of the Resolution Context and the externally supplied literals: two
invocations with identical inputs yield identical tables (the embedding is a
total function, so there is no side effect beyond the returned table). -/
theorem resolve_deterministic (c₁ c₂ : CalCtx) (p₁ p₂ : MissingCfg)
    (hc : c₁ = c₂) (hp : p₁ = p₂) :
    resolveCcCalBase c₁ p₁ = resolveCcCalBase c₂ p₂ := by
  rw [hc, hp]

/-- C3 witness: repeated invocation at `ctx400` / `cfg0`. -/
theorem resolve_deterministic_witness :
    resolveCcCalBase ctx400 cfg0 = resolveCcCalBase ctx400 cfg0 :=
  resolve_deterministic ctx400 ctx400 cfg0 cfg0 rfl rfl

/-- C4: for every context on which resolution succeeds, recomputing the
dead-time-compensation entries from the declared formula
(dead time - 100 ns) * 1e-9 applied to the resolved power-module dead-time
literals reproduces the stored table values exactly, for each target and each
inverter. -/
theorem tdead_comp_formula_consistency (c : CalCtx) (p : MissingCfg)
    (t : List (String × List ℚ)) (pm : PmBranch)
    (h : resolveCcCalBase c p = Except.ok t)
    (hpm : resolvePowerModule c.powerModule = Except.ok pm) :
    List.lookup ("CcCal_DeadTimeComp_TdeadComp_INV1") t
      = some [tdeadCompSpec (pm.MOT_INV1_DEADTIME : ℚ),
              tdeadCompSpec (pm.HSG_INV1_DEADTIME : ℚ)] ∧
    List.lookup ("CcCal_DeadTimeComp_TdeadComp_INV2") t
      = some [tdeadCompSpec (pm.MOT_INV2_DEADTIME : ℚ),
              tdeadCompSpec (pm.HSG_INV2_DEADTIME : ℚ)] := by
  obtain ⟨pm', motRange, rspwmEnb, sqpwmDis, burstFrag, varDtgsEnb,
    hpm', hmr, hrs, hsq, hb, hvd, ht⟩ := resolveCcCalBase_ok_shape c p t h
  obtain rfl := Except.ok.inj (hpm'.symm.trans hpm)
  subst ht
  exact ⟨rfl, rfl⟩

/-- C4 witness at `ctx400` / `cfg0` with the case-type power module branch. -/
theorem tdead_comp_formula_consistency_witness :
    List.lookup ("CcCal_DeadTimeComp_TdeadComp_INV1") tbl400
      = some [tdeadCompSpec ((2200 : Nat) : ℚ), tdeadCompSpec ((2200 : Nat) : ℚ)] ∧
    List.lookup ("CcCal_DeadTimeComp_TdeadComp_INV2") tbl400
      = some [tdeadCompSpec ((2200 : Nat) : ℚ), tdeadCompSpec ((2200 : Nat) : ℚ)] :=
  tdead_comp_formula_consistency ctx400 cfg0 tbl400
    ⟨2200, 2200, 2200, 2200, 2200⟩ rfl rfl

/-- C5 counterexample: decoding the stored SWRDC K1 integer mantissa by the
stored K1SCALE value 7, as the claim prescribes, does NOT reproduce the float
gain 0.64339817 within one unit in the last place — the decode is off by more
than four orders of magnitude, because the mantissa was encoded against the
fixed binary scale 0x800000 = 2^23, not against K1SCALE. -/
theorem swrdc_gain_decode_with_kscale_fails :
    ¬ (|(CcCal_SWRDC_GainUpdate_K1D_val : ℚ) / 2 ^ CcCal_SWRDC_GainUpdate_K1SCALE_val
          - 0.64339817|
        ≤ 1 / 2 ^ CcCal_SWRDC_GainUpdate_K1SCALE_val) := by
  rw [not_le, lt_abs]
  left
  norm_num [CcCal_SWRDC_GainUpdate_K1D_val, CcCal_SWRDC_GainUpdate_K1SCALE_val, ratTrunc]

/-- C5 amended: the stored SWRDC gain-update mantissas are encoded against the
fixed binary scale 0x800000 = 2^23 that appears in their initializers, not
against the stored K1SCALE/K2SCALE shift parameters; decoding by mantissa/2^23
reproduces the float gains 0.64339817 and 0.99471843 within one unit in the
last place. -/
theorem swrdc_gain_decode_mantissa_scale :
    |(CcCal_SWRDC_GainUpdate_K1D_val : ℚ) / 2 ^ 23 - 0.64339817| ≤ 1 / 2 ^ 23 ∧
    |(CcCal_SWRDC_GainUpdate_K2D_val : ℚ) / 2 ^ 23 - 0.99471843| ≤ 1 / 2 ^ 23 := by
  constructor <;> rw [abs_le] <;> constructor <;>
    norm_num [CcCal_SWRDC_GainUpdate_K1D_val, CcCal_SWRDC_GainUpdate_K2D_val, ratTrunc]

/-- C6: a Resolution Context whose power-module-type axis carries the
undefined sentinel fails with UndefinedAxis naming that axis, and the
CcCalBase resolution produces no table at all, hence no dead-time constant is
bound. -/
theorem power_module_undefined_axis_error (c : CalCtx) (p : MissingCfg)
    (h : c.powerModule = PowerModuleType.undefinedOption) :
    resolvePowerModule c.powerModule
      = Except.error (ConfigError.UndefinedAxis ("_POWER_MODULE_TYPE")) ∧
    ∀ t, resolveCcCalBase c p ≠ Except.ok t := by
  constructor
  · rw [h]
    rfl
  · intro t ht
    unfold resolveCcCalBase at ht
    rw [h] at ht
    simp [resolvePowerModule] at ht

/-- C6 witness at the concrete context `ctxPmUndef`. -/
theorem power_module_undefined_axis_error_witness :
    resolvePowerModule ctxPmUndef.powerModule
      = Except.error (ConfigError.UndefinedAxis ("_POWER_MODULE_TYPE")) ∧
    ∀ t, resolveCcCalBase ctxPmUndef cfg0 ≠ Except.ok t :=
  power_module_undefined_axis_error ctxPmUndef cfg0 rfl

/-- C7: a context selecting gate-IC type 7 resolves exactly the seventh
branch's literals — minimum pulse width 300 ns for both inverters on both
targets and ASAC edge offset 390 ns — into the BswCfgCal_Pwm bindings. -/
theorem gate_ic_type7_branch_literals :
    resolveGateIc .gateIcType7 = Except.ok ⟨300, 300, 390, 300, 300, 390⟩ ∧
    ∀ p : MissingCfg, ∃ t, resolveBswCfgPwm pwmCtx7 p = Except.ok t ∧
      List.lookup ("BswCfgCal_Pwm_MotMinPulseWidth_INV1") t = some 300 ∧
      List.lookup ("BswCfgCal_Pwm_MotMinPulseWidth_INV2") t = some 300 ∧
      List.lookup ("BswCfgCal_Pwm_HsgMinPulseWidth_INV1") t = some 300 ∧
      List.lookup ("BswCfgCal_Pwm_HsgMinPulseWidth_INV2") t = some 300 ∧
      List.lookup ("BswCfgCal_Pwm_MotAsacEdgeOffset") t = some 390 ∧
      List.lookup ("BswCfgCal_Pwm_HsgAsacEdgeOffset") t = some 390 :=
  ⟨rfl, fun _ => ⟨_, rfl, rfl, rfl, rfl, rfl, rfl, rfl⟩⟩

/-- C8: with the motor current-sensor axis selecting a 400 A range, the
resolved motor current scale constant bound into CcCal_Cur_ScaleFactor equals
400 * 0.00061035 = 0.24414 exactly. -/
theorem cur_sensor_scale_400A_hall :
    curSensorScale 400 = 0.24414 ∧
    ∀ p : MissingCfg, ∃ t, resolveCcCalBase ctx400 p = Except.ok t ∧
      List.lookup ("CcCal_Cur_ScaleFactor") t
        = some [0.24414, curSensorScale p.CUR_SENSOR_RANGE_HSG] := by
  have h1 : curSensorScale 400 = 0.24414 := by norm_num [curSensorScale]
  refine ⟨h1, fun p => ⟨_, rfl, ?_⟩⟩
  rw [← h1]
  rfl

/-- C9: the RDC uni-trigger start offsets satisfy the undocumented derivation
UNITRIG_START_OFFSET = 500 * PERIOD + START_OFFSET for both targets:
33005 = 500*66 + 5 for the motor and 33030 = 500*66 + 30 for the HSG. -/
theorem unitrig_start_offset_derivation :
    BswCfgCal_Rdc_MotUnitrigStartOffset
      = 500 * BswCfgCal_Rdc_MotPeriod + BSWCFGRDC_MOT_START_OFFSET ∧
    BswCfgCal_Rdc_HsgUnitrigStartOffset
      = 500 * BswCfgCal_Rdc_HsgPeriod + BSWCFGRDC_HSG_START_OFFSET := by
  constructor <;> decide

/-- C10: in every successfully resolved table whose HSG sensor range is
nonzero, the INVIcompZCC and IcompZCC arrays are exact multiplicative
inverses entry by entry, for both inverters and both targets. -/
theorem icomp_zcc_inverse_pair (c : CalCtx) (p : MissingCfg)
    (t : List (String × List ℚ)) (h : resolveCcCalBase c p = Except.ok t)
    (hh : p.CUR_SENSOR_RANGE_HSG ≠ 0) :
    ∃ a1 b1 a2 b2,
      List.lookup ("CcCal_DeadTimeComp_INVIcompZCC_INV1") t = some a1 ∧
      List.lookup ("CcCal_DeadTimeComp_IcompZCC_INV1") t = some b1 ∧
      List.lookup ("CcCal_DeadTimeComp_INVIcompZCC_INV2") t = some a2 ∧
      List.lookup ("CcCal_DeadTimeComp_IcompZCC_INV2") t = some b2 ∧
      List.zipWith (fun x y => x * y) a1 b1 = [1, 1] ∧
      List.zipWith (fun x y => x * y) a2 b2 = [1, 1] := by
  obtain ⟨pm, motRange, rspwmEnb, sqpwmDis, burstFrag, varDtgsEnb,
    hpm, hmr, hrs, hsq, hb, hvd, ht⟩ := resolveCcCalBase_ok_shape c p t h
  subst ht
  have hr : motRange ≠ 0 := resolveMotCurSensor_ok_ne_zero _ _ hmr
  have hm : motRange * 0.05 ≠ 0 := mul_ne_zero hr (by norm_num)
  have hg : p.CUR_SENSOR_RANGE_HSG * 0.05 ≠ 0 := mul_ne_zero hh (by norm_num)
  refine ⟨_, _, _, _, rfl, rfl, rfl, rfl, ?_, ?_⟩
  all_goals
    show [(1 / (motRange * 0.05)) * (motRange * 0.05),
          (1 / (p.CUR_SENSOR_RANGE_HSG * 0.05)) * (p.CUR_SENSOR_RANGE_HSG * 0.05)]
        = [1, 1]
    rw [one_div_mul_cancel hm, one_div_mul_cancel hg]

/-- C10 witness at `ctx400` / `cfg0` (HSG range 400). -/
theorem icomp_zcc_inverse_pair_witness :
    ∃ a1 b1 a2 b2,
      List.lookup ("CcCal_DeadTimeComp_INVIcompZCC_INV1") tbl400 = some a1 ∧
      List.lookup ("CcCal_DeadTimeComp_IcompZCC_INV1") tbl400 = some b1 ∧
      List.lookup ("CcCal_DeadTimeComp_INVIcompZCC_INV2") tbl400 = some a2 ∧
      List.lookup ("CcCal_DeadTimeComp_IcompZCC_INV2") tbl400 = some b2 ∧
      List.zipWith (fun x y => x * y) a1 b1 = [1, 1] ∧
      List.zipWith (fun x y => x * y) a2 b2 = [1, 1] :=
  icomp_zcc_inverse_pair ctx400 cfg0 tbl400 rfl (by norm_num [cfg0])

end AutoCal
